import Mathlib

/-!
Shallow embedding of `src/forest-server/system-clock.js` (class `SystemClock`).

Modelling conventions:
* Timestamps are milliseconds since the Unix epoch (`Date.now()`), embedded
  as `Int` so that subtraction behaves exactly as in JavaScript.
* `this.lastAnalysis` is a JS `Map` from string keys to ISO-timestamp strings;
  it is embedded as an association list `Registry` whose `setKey` has JS `Map.set`
  semantics (update in place, append new keys at the end).  Since an ISO string
  and its millisecond value correspond one-to-one on the relevant range, the
  stored strings are embedded as their millisecond values.  A stored ISO string
  is always non-empty, so JS string truthiness of `Map.get` is `Option.isSome`.
* `this.lastArchivingAttempt` is a raw number (or `undefined`); JS truthiness
  makes both `undefined` and `0` falsy, which `jsTruthyNum` captures.
* Each method runs against an `Env` recording the outcome of every external
  collaborator call it can make (project management, data persistence loads,
  reasoning/identity engines, data archiver); `Except String` is a raised
  exception.  Within one invocation all `Date.now()` / `new Date()` reads are
  embedded as the single argument `now` (they differ by at most the body's own
  running time).
* Observable actions are collected in an effect trace (`List Effect`).
  Routine `logger.info`/`logger.debug` diagnostics are omitted except the two
  archiving log messages and the error/warn messages that the specification's
  claims talk about.
-/

namespace SystemClockModel

/-- Milliseconds since the Unix epoch, as `Date.now()` returns. -/
abbrev Timestamp := Int

/-- The `lastAnalysis` JS `Map`: key-to-timestamp association list. -/
abbrev Registry := List (String × Timestamp)

/-- JS `Map.get`: the value stored under `k`, if any. -/
def lookupKey : Registry → String → Option Timestamp
  | [], _ => none
  | (k', v) :: r, k => if k' = k then some v else lookupKey r k

/-- JS `Map.set`: replace in place if the key exists, else append at the end. -/
def setKey : Registry → String → Timestamp → Registry
  | [], k, v => [(k, v)]
  | (k', v') :: r, k, v =>
      if k' = k then (k, v) :: r else (k', v') :: setKey r k v

/-- JS truthiness of a number-or-undefined (`this.lastArchivingAttempt`):
`undefined` and `0` are falsy, every other number is truthy. -/
def jsTruthyNum : Option Timestamp → Bool
  | none => false
  | some n => n != 0

/-- The mutable instance state of a `SystemClock`:
`isRunning`, the keys of the `intervals` map (the timer handles themselves are
abstracted away), the `lastAnalysis` registry, and `lastArchivingAttempt`. -/
structure ClockState where
  isRunning : Bool
  intervals : List String
  lastAnalysis : Registry
  lastArchivingAttempt : Option Timestamp
deriving Repr, DecidableEq

/-- Observable actions of one method invocation, in order. -/
inductive Effect
  | requireProject                          -- projectManagement.requireActiveProject()
  | loadData (key : String)                 -- dataPersistence.loadProjectData(_, key)
  | providerCall (op : String)              -- reasoning/identity engine or archiver call
  | emit (topic : String)                   -- this.eventBus.emit(topic, ...)
  | logDebug (msg : String)                 -- logger.debug (only the two archiving messages)
  | logWarn (msg : String)                  -- logger.warn
  | logErr (msg : String)                   -- logger.error
  | persistError (ctx : String)             -- dataPersistence.logError(ctx, error)
  | setIntervalE (key : String) (periodMs : Nat)      -- setInterval(...), tracked under key
  | setTimeoutE (delayMs : Nat) (jobs : List String)  -- setTimeout(...) running the named bodies
  | clearIntervalE (key : String)           -- clearInterval(...) for the timer under key
deriving Repr, DecidableEq

/-- One item of `learningHistory.completedTopics` (only the fields
`calculateSystemMetrics` reads). -/
structure LearningTopic where
  difficulty : Option Int
  breakthrough : Bool
  branch : Option String
  completedAt : Option Timestamp
deriving Repr, DecidableEq

/-- Outcomes of every external collaborator call a `SystemClock` method can
make.  `Except.error` is the call raising. -/
structure Env where
  activeProject : Except String String                       -- requireActiveProject()
  analysisResult : Except String Unit                        -- reasoningEngine.performBackgroundAnalysis
  reflectionResult : Except String Unit                      -- identityEngine.performBackgroundReflection
  assessResult : Except String Bool                          -- dataArchiver.assessArchiveNeeds
  archiveResult : Except String Unit                         -- dataArchiver.performArchiving
  configLoad : Except String Unit                            -- loadProjectData(_, 'config.json')
  htaLoad : Except String Unit                               -- loadProjectData(_, 'hta.json')
  historyLoad : Except String (Option (List LearningTopic))  -- loadProjectData(_, 'learning_history.json'): completedTopics if present
deriving Repr

/-- The metrics object built by `calculateSystemMetrics`.  JS computes
`averageDifficulty` in floating point; it is embedded exactly in `ℚ`. -/
structure Metrics where
  totalCompletedTasks : Nat
  averageDifficulty : ℚ
  breakthroughCount : Nat
  branchDiversity : Nat
  momentum : Nat
  lastActivityDays : Int
  error : Option String
deriving Repr, DecidableEq

/-- The all-zero metrics object the function starts from. -/
def zeroMetrics : Metrics :=
  { totalCompletedTasks := 0, averageDifficulty := 0, breakthroughCount := 0,
    branchDiversity := 0, momentum := 0, lastActivityDays := 0, error := none }

/-- JS `t.difficulty || 3`: `undefined` and `0` are falsy and default to 3. -/
def jsDifficulty (d : Option Int) : Int :=
  match d with
  | none => 3
  | some n => if n = 0 then 3 else n

/-- JS `t.branch || 'general'`: `undefined` and the empty string default. -/
def jsBranch (b : Option String) : String :=
  match b with
  | none => "general"
  | some s => if s = "" then "general" else s

/-- `calculateSystemMetrics` (system-clock.js lines 510-562).  The input is
`systemState.learningHistory?.completedTopics` (`none` when the history is
absent or has no such list).  Nothing in the typed model can raise inside the
`try`, so the catch branch setting `metrics.error` is unreachable here. -/
def calculateSystemMetrics (now : Timestamp) (completedTopics : Option (List LearningTopic)) :
    Metrics :=
  match completedTopics with
  | none => zeroMetrics
  | some topics =>
    if topics.length = 0 then
      { zeroMetrics with totalCompletedTasks := topics.length }
    else
      let difficulties := topics.map (fun t => jsDifficulty t.difficulty)
      let avg : ℚ := ((difficulties.foldl (· + ·) 0 : Int) : ℚ) / (difficulties.length : ℚ)
      let breakthroughs := (topics.filter (fun t => t.breakthrough)).length
      let branches := ((topics.map (fun t => jsBranch t.branch)).dedup).length
      let sevenDaysAgo : Timestamp := now - 7 * 24 * 60 * 60 * 1000
      let momentum := (topics.filter (fun t =>
          match t.completedAt with
          | some c => decide (sevenDaysAgo ≤ c)   -- completedDate >= sevenDaysAgo
          | none => false)).length                -- Invalid Date compares false
      let lastActivityDays : Int :=
        match topics.getLast? with
        | some lastTopic =>
          match lastTopic.completedAt with
          | some c => (now - c).fdiv 86400000     -- Math.floor((now - lastActivity) / 86400000)
          | none => 0
        | none => 0
      { totalCompletedTasks := topics.length, averageDifficulty := avg,
        breakthroughCount := breakthroughs, branchDiversity := branches,
        momentum := momentum, lastActivityDays := lastActivityDays, error := none }

/-- The snapshot `gatherSystemState` assembles (fields a claim can look at;
`recentSchedules` carries no claim-relevant data and is left out). -/
structure Snapshot where
  projectId : String
  timestamp : Timestamp
  lastAnalyses : Registry
  learningHistory : Option (Option (List LearningTopic))
  metrics : Option Metrics
  error : Option String
deriving Repr, DecidableEq

/-- The seven `day_<date>.json` loads (each guarded by its own swallowed
try/catch); the date strings are abstracted to indices. -/
def dayLoadTrace : List Effect :=
  [.loadData "day_0", .loadData "day_1", .loadData "day_2", .loadData "day_3",
   .loadData "day_4", .loadData "day_5", .loadData "day_6"]

/-- `gatherSystemState` (lines 453-503): loads config, HTA data and learning
history in order; a raised load is caught in place, logged and recorded as
`snapshot.error` (the snapshot is still returned, `metrics` left unset).  When
all three loads succeed the seven daily schedules are probed (their own
failures are swallowed) and the metrics are computed. -/
def gatherSystemState (env : Env) (st : ClockState) (now : Timestamp) (projectId : String) :
    Snapshot × List Effect :=
  let base : Snapshot :=
    { projectId := projectId, timestamp := now, lastAnalyses := st.lastAnalysis,
      learningHistory := none, metrics := none, error := none }
  match env.configLoad with
  | .error m => ({ base with error := some m }, [.loadData "config.json", .logErr m])
  | .ok _ =>
    match env.htaLoad with
    | .error m =>
        ({ base with error := some m },
         [.loadData "config.json", .loadData "hta.json", .logErr m])
    | .ok _ =>
      match env.historyLoad with
      | .error m =>
          ({ base with error := some m },
           [.loadData "config.json", .loadData "hta.json",
            .loadData "learning_history.json", .logErr m])
      | .ok hist =>
          ({ base with
              learningHistory := some hist
              metrics := some (calculateSystemMetrics now hist) },
           [.loadData "config.json", .loadData "hta.json",
            .loadData "learning_history.json"] ++ dayLoadTrace)

/-- Result of the code inside a `try` block: the state and trace produced so
far, plus the exception about to escape to the enclosing `catch`, if any. -/
structure TryResult where
  state : ClockState
  trace : List Effect
  thrown : Option String
deriving Repr

/-- The common `catch` block of every execution body (`logger.error` followed
by `dataPersistence.logError(ctx, error)`); a caught exception never escapes. -/
def runCatch (ctx : String) (r : TryResult) : ClockState × List Effect :=
  match r.thrown with
  | none => (r.state, r.trace)
  | some m => (r.state, r.trace ++ [.logErr m, .persistError ctx])

/-- The shared shape of the four analysis bodies (lines 251-390): resolve the
active project, gather a snapshot, invoke the provider, then record the
completion timestamp under `registryKey` and publish `topic`.  The four
JS methods differ only in provider operation, registry key, event topic and
catch context. -/
def tryAnalysisBody (providerOp : String) (providerResult : Except String Unit)
    (registryKey : String) (topic : String)
    (env : Env) (st : ClockState) (now : Timestamp) : TryResult :=
  match env.activeProject with
  | .error m => { state := st, trace := [.requireProject], thrown := some m }
  | .ok pid =>
    let gathered := gatherSystemState env st now pid
    match providerResult with
    | .error m =>
        { state := st
          trace := [.requireProject] ++ gathered.2 ++ [.providerCall providerOp]
          thrown := some m }
    | .ok _ =>
        { state := { st with lastAnalysis := setKey st.lastAnalysis registryKey now }
          trace := [.requireProject] ++ gathered.2 ++ [.providerCall providerOp, .emit topic]
          thrown := none }

/-- The `try` block of `performStrategicAnalysis`. -/
def tryStrategic (env : Env) (st : ClockState) (now : Timestamp) : TryResult :=
  tryAnalysisBody "reasoningEngine.performBackgroundAnalysis:strategic_overview"
    env.analysisResult "strategic_analysis" "system:strategic_insights" env st now

/-- `performStrategicAnalysis` (lines 251-288). -/
def performStrategicAnalysis (env : Env) (st : ClockState) (now : Timestamp) :
    ClockState × List Effect :=
  runCatch "SystemClock.performStrategicAnalysis" (tryStrategic env st now)

/-- The `try` block of `performRiskDetection`. -/
def tryRisk (env : Env) (st : ClockState) (now : Timestamp) : TryResult :=
  tryAnalysisBody "reasoningEngine.performBackgroundAnalysis:risk_detection"
    env.analysisResult "risk_detection" "system:risks_detected" env st now

/-- `performRiskDetection` (lines 293-324). -/
def performRiskDetection (env : Env) (st : ClockState) (now : Timestamp) :
    ClockState × List Effect :=
  runCatch "SystemClock.performRiskDetection" (tryRisk env st now)

/-- The `try` block of `performOpportunityScanning`. -/
def tryOpportunity (env : Env) (st : ClockState) (now : Timestamp) : TryResult :=
  tryAnalysisBody "reasoningEngine.performBackgroundAnalysis:opportunity_detection"
    env.analysisResult "opportunity_scanning" "system:opportunities_detected" env st now

/-- `performOpportunityScanning` (lines 329-360). -/
def performOpportunityScanning (env : Env) (st : ClockState) (now : Timestamp) :
    ClockState × List Effect :=
  runCatch "SystemClock.performOpportunityScanning" (tryOpportunity env st now)

/-- The `try` block of `performIdentityReflection`. -/
def tryIdentity (env : Env) (st : ClockState) (now : Timestamp) : TryResult :=
  tryAnalysisBody "identityEngine.performBackgroundReflection"
    env.reflectionResult "identity_reflection" "system:identity_insights" env st now

/-- `performIdentityReflection` (lines 365-390). -/
def performIdentityReflection (env : Env) (st : ClockState) (now : Timestamp) :
    ClockState × List Effect :=
  runCatch "SystemClock.performIdentityReflection" (tryIdentity env st now)

/-- The debug message of the archiving throttle branch (line 400). -/
def throttledMsg : String := "SystemClock: Archiving throttled - attempted too recently"

/-- The occasional no-op diagnostic of the archiving body (line 438). -/
def noArchivingMsg : String := "No archiving needed at this time"

/-- The throttle guard of `performArchiving` (line 399):
`this.lastArchivingAttempt && (now - this.lastArchivingAttempt) < 30000`.
JS truthiness makes an unset or zero attempt timestamp pass the guard. -/
def throttleGuard (st : ClockState) (now : Timestamp) : Bool :=
  jsTruthyNum st.lastArchivingAttempt &&
    decide (now - st.lastArchivingAttempt.getD 0 < 30000)

/-- The `try` block of `performArchiving` (lines 395-441): throttle check,
unconditional attempt-timestamp write, project resolution, archive-need
assessment, then either the archiving branch (registry `data_archiving`
updated, completion event published) or the no-op branch (note logged only
when the stored `data_archiving_check` is missing or older than six hours,
then `data_archiving_check` updated). -/
def tryArchiving (env : Env) (st : ClockState) (now : Timestamp) : TryResult :=
  if throttleGuard st now then
    { state := st, trace := [.logDebug throttledMsg], thrown := none }
  else
    let st1 := { st with lastArchivingAttempt := some now }
    match env.activeProject with
    | .error m => { state := st1, trace := [.requireProject], thrown := some m }
    | .ok _ =>
      match env.assessResult with
      | .error m =>
          { state := st1
            trace := [.requireProject, .providerCall "dataArchiver.assessArchiveNeeds"]
            thrown := some m }
      | .ok needed =>
        if needed then
          match env.archiveResult with
          | .error m =>
              { state := st1
                trace := [.requireProject, .providerCall "dataArchiver.assessArchiveNeeds",
                          .providerCall "dataArchiver.performArchiving"]
                thrown := some m }
          | .ok _ =>
              { state := { st1 with lastAnalysis := setKey st1.lastAnalysis "data_archiving" now }
                trace := [.requireProject, .providerCall "dataArchiver.assessArchiveNeeds",
                          .providerCall "dataArchiver.performArchiving",
                          .emit "system:archiving_completed"]
                thrown := none }
        else
          let lastCheck := lookupKey st1.lastAnalysis "data_archiving_check"
          let shouldLog := lastCheck.isNone || decide (now - lastCheck.getD 0 > 21600000)
          { state := { st1 with
              lastAnalysis := setKey st1.lastAnalysis "data_archiving_check" now }
            trace := [.requireProject, .providerCall "dataArchiver.assessArchiveNeeds"] ++
                     (if shouldLog then [.logDebug noArchivingMsg] else [])
            thrown := none }

/-- `performArchiving` (lines 395-446), catch included. -/
def performArchiving (env : Env) (st : ClockState) (now : Timestamp) :
    ClockState × List Effect :=
  runCatch "SystemClock.performArchiving" (tryArchiving env st now)

/-- `triggerImmediateAnalysis` (lines 622-644): the JS `switch` over the tag. -/
def triggerImmediateAnalysis (env : Env) (st : ClockState) (now : Timestamp)
    (analysisType : String) : ClockState × List Effect :=
  match analysisType with
  | "strategic" => performStrategicAnalysis env st now
  | "risk" => performRiskDetection env st now
  | "opportunity" => performOpportunityScanning env st now
  | "identity" => performIdentityReflection env st now
  | "archive" => performArchiving env st now
  | other => (st, [.logErr ("Unknown analysis type: " ++ other)])

/-- The caller-supplied `config` object of `start` (absent fields omitted). -/
structure ConfigInput where
  strategicAnalysisHours : Option Nat := none
  riskDetectionHours : Option Nat := none
  opportunityScansHours : Option Nat := none
  identityReflectionDays : Option Nat := none
  archivingDays : Option Nat := none
  enableBackgroundTicks : Option Bool := none
deriving Repr, DecidableEq

/-- The merged clock configuration. -/
structure ClockConfig where
  strategicAnalysisHours : Nat
  riskDetectionHours : Nat
  opportunityScansHours : Nat
  identityReflectionDays : Nat
  archivingDays : Nat
  enableBackgroundTicks : Bool
deriving Repr, DecidableEq

/-- `{ ...defaultConfig, ...config }` (lines 65-74): caller fields override
the defaults field by field. -/
def mergeConfig (c : ConfigInput) : ClockConfig :=
  { strategicAnalysisHours := c.strategicAnalysisHours.getD 24
    riskDetectionHours := c.riskDetectionHours.getD 12
    opportunityScansHours := c.opportunityScansHours.getD 6
    identityReflectionDays := c.identityReflectionDays.getD 7
    archivingDays := c.archivingDays.getD 30
    enableBackgroundTicks := c.enableBackgroundTicks.getD true }

/-- JS `Map.set` on the `intervals` map, keys only: an existing key keeps its
place (its timer handle is overwritten), a new key is appended. -/
def addIntervalKey (l : List String) (k : String) : List String :=
  if k ∈ l then l else l ++ [k]

/-- `scheduleStrategicAnalysis` (lines 145-165): suppressed entirely in MCP
mode; otherwise one recurring timer plus a 30-second warm-up run. -/
def scheduleStrategicAnalysis (isTTY : Bool) (hours : Nat) (st : ClockState) :
    ClockState × List Effect :=
  if !isTTY then (st, [])
  else
    ({ st with intervals := addIntervalKey st.intervals "strategic_analysis" },
     [.setIntervalE "strategic_analysis" (hours * 60 * 60 * 1000),
      .setTimeoutE 30000 ["performStrategicAnalysis"]])

/-- `scheduleRiskDetection` (lines 171-184): no MCP-mode check of its own;
one recurring timer plus a 1-minute warm-up run. -/
def scheduleRiskDetection (hours : Nat) (st : ClockState) : ClockState × List Effect :=
  ({ st with intervals := addIntervalKey st.intervals "risk_detection" },
   [.setIntervalE "risk_detection" (hours * 60 * 60 * 1000),
    .setTimeoutE 60000 ["performRiskDetection"]])

/-- `scheduleOpportunityScans` (lines 190-203): one recurring timer plus a
90-second warm-up run. -/
def scheduleOpportunityScans (hours : Nat) (st : ClockState) : ClockState × List Effect :=
  ({ st with intervals := addIntervalKey st.intervals "opportunity_scanning" },
   [.setIntervalE "opportunity_scanning" (hours * 60 * 60 * 1000),
    .setTimeoutE 90000 ["performOpportunityScanning"]])

/-- `scheduleIdentityReflection` (lines 209-222): one recurring timer plus a
2-minute warm-up run. -/
def scheduleIdentityReflection (days : Nat) (st : ClockState) : ClockState × List Effect :=
  ({ st with intervals := addIntervalKey st.intervals "identity_reflection" },
   [.setIntervalE "identity_reflection" (days * 24 * 60 * 60 * 1000),
    .setTimeoutE 120000 ["performIdentityReflection"]])

/-- `scheduleArchiving` (lines 228-246): suppressed entirely in MCP mode;
one recurring timer and no warm-up run (the warm-up is commented out). -/
def scheduleArchiving (isTTY : Bool) (days : Nat) (st : ClockState) :
    ClockState × List Effect :=
  if !isTTY then (st, [])
  else
    ({ st with intervals := addIntervalKey st.intervals "data_archiving" },
     [.setIntervalE "data_archiving" (days * 24 * 60 * 60 * 1000)])

/-- The five schedule calls of `start` (lines 90-94), in source order. -/
def scheduleAll (isTTY : Bool) (cc : ClockConfig) (st : ClockState) :
    ClockState × List Effect :=
  let r1 := scheduleStrategicAnalysis isTTY cc.strategicAnalysisHours st
  let r2 := scheduleRiskDetection cc.riskDetectionHours r1.1
  let r3 := scheduleOpportunityScans cc.opportunityScansHours r2.1
  let r4 := scheduleIdentityReflection cc.identityReflectionDays r3.1
  let r5 := scheduleArchiving isTTY cc.archivingDays r4.1
  (r5.1, r1.2 ++ r2.2 ++ r3.2 ++ r4.2 ++ r5.2)

/-- The warning `start` logs when the clock already runs (line 61). -/
def alreadyRunningMsg : String := "SystemClock already running"

/-- `start` (lines 59-112).  `isTTY` is `process.stdin.isTTY`; when it is
false (MCP mode) `clockConfig.enableBackgroundTicks` is forced to `false`, so
no schedule call runs.  The `system:clock_started` event is emitted in every
non-short-circuit case. -/
def start (isTTY : Bool) (cfg : ConfigInput) (st : ClockState) : ClockState × List Effect :=
  if st.isRunning then (st, [.logWarn alreadyRunningMsg])
  else
    let clockConfig := mergeConfig cfg
    let ticks := if !isTTY then false else clockConfig.enableBackgroundTicks
    let st1 := { st with isRunning := true }
    let scheduled := if ticks then scheduleAll isTTY clockConfig st1 else (st1, [])
    (scheduled.1, scheduled.2 ++ [.emit "system:clock_started"])

/-- `stop` (lines 117-139): a no-op on a stopped clock; otherwise every timer
is cleared (in map order), the map emptied, `isRunning` flipped, and only then
`system:clock_stopped` published. -/
def stop (st : ClockState) : ClockState × List Effect :=
  if !st.isRunning then (st, [])
  else
    ({ st with intervals := [], isRunning := false },
     st.intervals.map (fun k => Effect.clearIntervalE k) ++ [.emit "system:clock_stopped"])

/-- The object `getStatus` returns (lines 609-616). -/
structure Status where
  isRunning : Bool
  activeIntervals : List String
  lastAnalyses : Registry
  uptime : String
deriving Repr, DecidableEq

/-- `getStatus` (lines 609-616): side-effect-free read of the clock state. -/
def getStatus (st : ClockState) : Status :=
  { isRunning := st.isRunning
    activeIntervals := st.intervals
    lastAnalyses := st.lastAnalysis
    uptime := if st.isRunning then "Active" else "Stopped" }

/-- The payload fields `onBlockCompleted` reads:
`block.breakthrough` (truthy flag) and
`block.opportunityContext?.engagementLevel` (`none` when the optional chain
hits `undefined` at either level). -/
structure BlockPayload where
  breakthrough : Bool
  engagementLevel : Option Int
deriving Repr, DecidableEq

/-- `onBlockCompleted` (lines 567-577): a breakthrough or an engagement level
of at least 8 schedules one extra strategic analysis 5 seconds out.
JS `undefined >= 8` is false. -/
def onBlockCompleted (block : BlockPayload) : List Effect :=
  if block.breakthrough ||
      (match block.engagementLevel with
       | some e => decide (8 ≤ e)
       | none => false) then
    [.setTimeoutE 5000 ["performStrategicAnalysis"]]
  else []

/-- `onProjectCreated` (lines 582-590): unconditionally schedules one delayed
callback, 10 seconds out, that runs a strategic analysis and an opportunity
scan. -/
def onProjectCreated (_projectId : String) : List Effect :=
  [.setTimeoutE 10000 ["performStrategicAnalysis", "performOpportunityScanning"]]

/-- `onStrategyEvolved` (lines 595-603): at least 3 added tasks schedule one
extra risk detection 3 seconds out.  JS `undefined >= 3` is false. -/
def onStrategyEvolved (tasksAdded : Option Int) : List Effect :=
  if (match tasksAdded with
      | some n => decide (3 ≤ n)
      | none => false) then
    [.setTimeoutE 3000 ["performRiskDetection"]]
  else []

/-! ### Helper predicates over effect traces -/

/-- Whether an effect is a provider invocation (reasoning engine, identity
engine or archiver operation). -/
def isProviderCall : Effect → Bool
  | .providerCall _ => true
  | _ => false

/-- Number of provider invocations in a trace. -/
def providerCalls (tr : List Effect) : Nat := (tr.filter isProviderCall).length

/-- Whether an effect creates a recurring timer or a delayed one-off run. -/
def isSchedulingEffect : Effect → Bool
  | .setIntervalE _ _ => true
  | .setTimeoutE _ _ => true
  | _ => false

/-! ### Shared concrete inputs for witnesses and counterexamples -/

/-- A fully cooperative environment: every collaborator call succeeds and the
archiver reports that no archiving is needed. -/
def envBase : Env :=
  { activeProject := .ok "p1", analysisResult := .ok (), reflectionResult := .ok ()
    assessResult := .ok false, archiveResult := .ok ()
    configLoad := .ok (), htaLoad := .ok (), historyLoad := .ok none }

/-- An environment where `requireActiveProject` raises. -/
def envNoProject : Env := { envBase with activeProject := .error "no active project" }

/-- The state a freshly constructed `SystemClock` is in. -/
def stFresh : ClockState :=
  { isRunning := false, intervals := [], lastAnalysis := [], lastArchivingAttempt := none }

/-! ### Helper lemmas -/

theorem lookupKey_setKey_self (r : Registry) (k : String) (v : Timestamp) :
    lookupKey (setKey r k v) k = some v := by
  induction r with
  | nil => simp [setKey, lookupKey]
  | cons hd tl ih =>
    obtain ⟨k', v'⟩ := hd
    by_cases h : k' = k <;> simp [setKey, lookupKey, h, ih]

theorem gather_no_provider (env : Env) (st : ClockState) (now : Timestamp) (pid : String) :
    ((gatherSystemState env st now pid).2).filter isProviderCall = [] := by
  unfold gatherSystemState
  cases env.configLoad <;> cases env.htaLoad <;> cases env.historyLoad <;>
    simp [isProviderCall, dayLoadTrace]

theorem gather_no_emit (env : Env) (st : ClockState) (now : Timestamp) (pid : String)
    (t : String) : Effect.emit t ∉ (gatherSystemState env st now pid).2 := by
  unfold gatherSystemState
  cases env.configLoad <;> cases env.htaLoad <;> cases env.historyLoad <;>
    simp [dayLoadTrace]

theorem scheduleStrategicAnalysis_frame (isTTY : Bool) (hours : Nat) (st : ClockState) :
    (scheduleStrategicAnalysis isTTY hours st).1.lastAnalysis = st.lastAnalysis ∧
    (scheduleStrategicAnalysis isTTY hours st).1.lastArchivingAttempt = st.lastArchivingAttempt ∧
    (scheduleStrategicAnalysis isTTY hours st).1.isRunning = st.isRunning := by
  unfold scheduleStrategicAnalysis; split <;> exact ⟨rfl, rfl, rfl⟩

theorem scheduleArchiving_frame (isTTY : Bool) (days : Nat) (st : ClockState) :
    (scheduleArchiving isTTY days st).1.lastAnalysis = st.lastAnalysis ∧
    (scheduleArchiving isTTY days st).1.lastArchivingAttempt = st.lastArchivingAttempt ∧
    (scheduleArchiving isTTY days st).1.isRunning = st.isRunning := by
  unfold scheduleArchiving; split <;> exact ⟨rfl, rfl, rfl⟩

theorem scheduleAll_frame (isTTY : Bool) (cc : ClockConfig) (st : ClockState) :
    (scheduleAll isTTY cc st).1.lastAnalysis = st.lastAnalysis ∧
    (scheduleAll isTTY cc st).1.lastArchivingAttempt = st.lastArchivingAttempt ∧
    (scheduleAll isTTY cc st).1.isRunning = st.isRunning := by
  unfold scheduleAll scheduleRiskDetection scheduleOpportunityScans scheduleIdentityReflection
  have h1 := scheduleStrategicAnalysis_frame isTTY cc.strategicAnalysisHours st
  have h5 := scheduleArchiving_frame isTTY cc.archivingDays
    { (scheduleStrategicAnalysis isTTY cc.strategicAnalysisHours st).1 with
        intervals := addIntervalKey (addIntervalKey (addIntervalKey
          (scheduleStrategicAnalysis isTTY cc.strategicAnalysisHours st).1.intervals
          "risk_detection") "opportunity_scanning") "identity_reflection" }
  simp only at h5
  exact ⟨by rw [h5.1]; exact h1.1, by rw [h5.2.1]; exact h1.2.1, by rw [h5.2.2]; exact h1.2.2⟩

/-- A running clock with one active timer, for witnesses below. -/
def stRunningOne : ClockState :=
  { isRunning := true, intervals := ["strategic_analysis"], lastAnalysis := []
    lastArchivingAttempt := none }

theorem addIntervalKey_nodup {l : List String} (k : String) (h : l.Nodup) :
    (addIntervalKey l k).Nodup := by
  unfold addIntervalKey
  split
  · exact h
  · next hk => simp [List.nodup_append, h, hk]

theorem scheduleStrategicAnalysis_nodup (isTTY : Bool) (hours : Nat) (st : ClockState)
    (h : st.intervals.Nodup) :
    (scheduleStrategicAnalysis isTTY hours st).1.intervals.Nodup := by
  unfold scheduleStrategicAnalysis
  split
  · exact h
  · exact addIntervalKey_nodup _ h

theorem scheduleArchiving_nodup (isTTY : Bool) (days : Nat) (st : ClockState)
    (h : st.intervals.Nodup) :
    (scheduleArchiving isTTY days st).1.intervals.Nodup := by
  unfold scheduleArchiving
  split
  · exact h
  · exact addIntervalKey_nodup _ h

theorem scheduleAll_nodup (isTTY : Bool) (cc : ClockConfig) (st : ClockState)
    (h : st.intervals.Nodup) : (scheduleAll isTTY cc st).1.intervals.Nodup := by
  unfold scheduleAll scheduleRiskDetection scheduleOpportunityScans scheduleIdentityReflection
  exact scheduleArchiving_nodup _ _ _
    (addIntervalKey_nodup _ (addIntervalKey_nodup _ (addIntervalKey_nodup _
      (scheduleStrategicAnalysis_nodup isTTY cc.strategicAnalysisHours st h))))

theorem start_intervals_nodup (isTTY : Bool) (cfg : ConfigInput) (st : ClockState)
    (h : st.intervals.Nodup) : (start isTTY cfg st).1.intervals.Nodup := by
  unfold start
  cases hr : st.isRunning
  case true => simpa [hr] using h
  case false =>
    cases isTTY <;> cases hE : (mergeConfig cfg).enableBackgroundTicks <;>
      simp [hr, hE] <;>
      first
        | exact h
        | exact scheduleAll_nodup _ _ _ h

theorem start_isRunning (isTTY : Bool) (cfg : ConfigInput) (st : ClockState) :
    (start isTTY cfg st).1.isRunning = true := by
  unfold start
  cases h : st.isRunning
  case true => simp [h]
  case false =>
    cases isTTY <;> cases hE : (mergeConfig cfg).enableBackgroundTicks <;>
      simp [h, hE,
        (scheduleAll_frame false (mergeConfig cfg) { st with isRunning := true }).2.2,
        (scheduleAll_frame true (mergeConfig cfg) { st with isRunning := true }).2.2]

/-! ### Claim theorems -/

/-- C9 (confirmed): neither `stop` nor a subsequent `start` modifies the
`RunRegistry`: every key-to-timestamp entry of `lastAnalysis` (which holds the
auxiliary `data_archiving_check` key as well) and the archiving throttle
timestamp are identical before and after either lifecycle call; neither ever
resets the registry. -/
theorem c9_lifecycle_registry_frame (isTTY : Bool) (cfg : ConfigInput) (st : ClockState) :
    (start isTTY cfg st).1.lastAnalysis = st.lastAnalysis ∧
    (start isTTY cfg st).1.lastArchivingAttempt = st.lastArchivingAttempt ∧
    (stop st).1.lastAnalysis = st.lastAnalysis ∧
    (stop st).1.lastArchivingAttempt = st.lastArchivingAttempt := by
  have hstop : (stop st).1.lastAnalysis = st.lastAnalysis ∧
      (stop st).1.lastArchivingAttempt = st.lastArchivingAttempt := by
    unfold stop; cases h : st.isRunning <;> simp [h]
  have hstart : (start isTTY cfg st).1.lastAnalysis = st.lastAnalysis ∧
      (start isTTY cfg st).1.lastArchivingAttempt = st.lastArchivingAttempt := by
    unfold start
    cases h : st.isRunning
    case true => simp [h]
    case false =>
      cases isTTY <;> cases hE : (mergeConfig cfg).enableBackgroundTicks <;>
        simp [h, hE,
          (scheduleAll_frame false (mergeConfig cfg) { st with isRunning := true }).1,
          (scheduleAll_frame false (mergeConfig cfg) { st with isRunning := true }).2.1,
          (scheduleAll_frame true (mergeConfig cfg) { st with isRunning := true }).1,
          (scheduleAll_frame true (mergeConfig cfg) { st with isRunning := true }).2.1]
  exact ⟨hstart.1, hstart.2, hstop.1, hstop.2⟩

/-- C10 (confirmed): when mode detection reports a non-interactive host
(`process.stdin.isTTY` false), `start` forces `enableBackgroundTicks` off no
matter what the caller supplied, so no JobKind receives a recurring timer or a
warm-up run: the `intervals` map is left untouched and the trace contains no
`setInterval` and no `setTimeout` effect.  Event subscriptions and the manual
trigger do not consult the mode, so event-driven and manual triggering remain
operative. -/
theorem c10_embedded_mode_no_timers (cfg : ConfigInput) (st : ClockState) :
    (start false cfg st).1.intervals = st.intervals ∧
    ((start false cfg st).2).filter isSchedulingEffect = [] := by
  unfold start
  cases h : st.isRunning <;> simp [h, isSchedulingEffect]

/-- C4 (confirmed): `start` called a second time without an intervening
`stop` is a no-op — the state (hence the timer set) is unchanged and the only
effect is a warning log, so no timer of any JobKind is created; moreover a
`start` never duplicates a key of the `intervals` map, so at most one
recurring timer per JobKind exists at any time. -/
theorem c4_start_idempotent (isTTY isTTY2 : Bool) (cfg cfg2 : ConfigInput) (st : ClockState) :
    start isTTY2 cfg2 (start isTTY cfg st).1 =
      ((start isTTY cfg st).1, [Effect.logWarn alreadyRunningMsg]) ∧
    (st.intervals.Nodup → (start isTTY cfg st).1.intervals.Nodup) := by
  constructor
  · have h : ∀ (tty : Bool) (c : ConfigInput) (s : ClockState), s.isRunning = true →
        start tty c s = (s, [Effect.logWarn alreadyRunningMsg]) := by
      intro tty c s hs; unfold start; simp [hs]
    exact h isTTY2 cfg2 _ (start_isRunning isTTY cfg st)
  · intro hnd
    exact start_intervals_nodup isTTY cfg st hnd

/-- C4 witness: the second `start` on a freshly started clock changes nothing
and the interval keys stay duplicate-free. -/
theorem c4_start_idempotent_witness :
    start true {} (start true {} stFresh).1 =
      ((start true {} stFresh).1, [Effect.logWarn alreadyRunningMsg]) ∧
    (stFresh.intervals.Nodup → (start true {} stFresh).1.intervals.Nodup) :=
  c4_start_idempotent true true {} {} stFresh

/-- C5 (confirmed): on every reachable state (a stopped clock holds no
timers), after `stop` the status reports `running = false` with an empty
active-timer set; `stop` on a stopped clock is a no-op with no cancellations
and no published event; and when `stop` does cancel timers, the
`system:clock_stopped` event appears in the trace strictly after all
`clearInterval` effects. -/
theorem c5_stop_contract (st : ClockState)
    (hwf : st.isRunning = false → st.intervals = []) :
    (getStatus (stop st).1).isRunning = false ∧
    (getStatus (stop st).1).activeIntervals = [] ∧
    (st.isRunning = false → stop st = (st, [])) ∧
    (st.isRunning = true →
      (stop st).2 = st.intervals.map (fun k => Effect.clearIntervalE k) ++
        [Effect.emit "system:clock_stopped"]) := by
  unfold stop getStatus
  cases h : st.isRunning <;> simp [h, hwf]

/-- C5 witness: stopping a running clock with one active timer. -/
theorem c5_stop_contract_witness :
    (getStatus (stop stRunningOne).1).isRunning = false ∧
    (getStatus (stop stRunningOne).1).activeIntervals = [] ∧
    (stRunningOne.isRunning = false → stop stRunningOne = (stRunningOne, [])) ∧
    (stRunningOne.isRunning = true →
      (stop stRunningOne).2 = stRunningOne.intervals.map (fun k => Effect.clearIntervalE k) ++
        [Effect.emit "system:clock_stopped"]) :=
  c5_stop_contract stRunningOne (by decide)

/-- C7 (confirmed): each inbound event schedules its one-off delayed run(s)
exactly under its stated payload condition — `block:completed` schedules one
strategic analysis 5 seconds out iff the payload flags a breakthrough or an
engagement level of at least 8; `project:created` unconditionally schedules
one strategic analysis and one opportunity scan 10 seconds out;
`strategy:evolved` schedules one risk detection 3 seconds out iff at least 3
tasks were added. -/
theorem c7_event_reactions (block : BlockPayload) (pid : String) (tasksAdded : Option Int) :
    (onBlockCompleted block = [Effect.setTimeoutE 5000 ["performStrategicAnalysis"]] ↔
      (block.breakthrough = true ∨ ∃ e, block.engagementLevel = some e ∧ 8 ≤ e)) ∧
    (onBlockCompleted block = [] ↔
      ¬(block.breakthrough = true ∨ ∃ e, block.engagementLevel = some e ∧ 8 ≤ e)) ∧
    onProjectCreated pid =
      [Effect.setTimeoutE 10000 ["performStrategicAnalysis", "performOpportunityScanning"]] ∧
    (onStrategyEvolved tasksAdded = [Effect.setTimeoutE 3000 ["performRiskDetection"]] ↔
      ∃ n, tasksAdded = some n ∧ 3 ≤ n) ∧
    (onStrategyEvolved tasksAdded = [] ↔ ¬ ∃ n, tasksAdded = some n ∧ 3 ≤ n) := by
  obtain ⟨bt, el⟩ := block
  refine ⟨?_, ?_, rfl, ?_, ?_⟩ <;>
    cases bt <;> rcases el with _ | e <;> rcases tasksAdded with _ | n <;>
      simp [onBlockCompleted, onProjectCreated, onStrategyEvolved]

theorem performArchiving_records_attempt (env : Env) (st : ClockState) (now : Timestamp)
    (h : throttleGuard st now = false) :
    (performArchiving env st now).1.lastArchivingAttempt = some now := by
  unfold performArchiving runCatch tryArchiving
  rcases env with ⟨ap, ar, rr, asr, arr, cl, hl, hil⟩
  rcases ap with m | pid
  · simp [h]
  · rcases asr with m | needed
    · simp [h]
    · cases needed
      · simp [h]
      · rcases arr with m | u <;> simp [h]

theorem performArchiving_throttled (env : Env) (st : ClockState) (now : Timestamp)
    (h : throttleGuard st now = true) :
    performArchiving env st now = (st, [Effect.logDebug throttledMsg]) := by
  unfold performArchiving runCatch tryArchiving
  simp [h]

/-- C2 (corrected): the archiving throttle measures the gap from the last
*recorded* attempt — an invocation that was itself throttled records nothing.
Provided the earlier of the two invocations passes the throttle (so its start
time is recorded) and that start time is nonzero (JS truthiness treats a
stored `0` like an absent attempt), any invocation starting less than 30
seconds later is a complete no-op: the state is unchanged (no attempt
timestamp, no registry entry) and the only effect is a debug log — no project
resolution, no archiver call, no published event. -/
theorem c2_throttle_noop_amended (env1 env2 : Env) (st : ClockState) (t1 t2 : Timestamp)
    (h1 : throttleGuard st t1 = false) (hnz : t1 ≠ 0) (hgap : t2 - t1 < 30000) :
    performArchiving env2 (performArchiving env1 st t1).1 t2 =
      ((performArchiving env1 st t1).1, [Effect.logDebug throttledMsg]) := by
  have hatt := performArchiving_records_attempt env1 st t1 h1
  have hguard : throttleGuard (performArchiving env1 st t1).1 t2 = true := by
    simp [throttleGuard, hatt, jsTruthyNum, hnz, hgap]
  exact performArchiving_throttled env2 _ t2 hguard

/-- C2 witness: a first attempt at 1 ms and a second 25 seconds later — the
second is throttled to a pure debug log. -/
theorem c2_throttle_noop_witness :
    performArchiving envBase (performArchiving envBase stFresh 1).1 25000 =
      ((performArchiving envBase stFresh 1).1, [Effect.logDebug throttledMsg]) :=
  c2_throttle_noop_amended envBase envBase stFresh 1 25000 (by decide) (by decide) (by decide)

/-- C2 counterexample: invocations at 1 ms (proceeds), 25000 ms (throttled,
records nothing) and 54000 ms.  The second and third start 29 seconds apart —
less than 30 — yet the third is not a no-op: it resolves the active project
and changes the state, because the throttle gap is measured from the first
invocation's recorded attempt (53999 ms earlier), not from the second. -/
theorem c2_throttle_counterexample :
    ((54000 : Int) - 25000 < 30000) ∧
    Effect.requireProject ∈
      (performArchiving envBase (performArchiving envBase
        (performArchiving envBase stFresh 1).1 25000).1 54000).2 ∧
    (performArchiving envBase (performArchiving envBase
        (performArchiving envBase stFresh 1).1 25000).1 54000).1 ≠
      (performArchiving envBase (performArchiving envBase stFresh 1).1 25000).1 := by
  decide

/-- C3 (corrected): in the no-archiving-needed branch the
`data_archiving_check` timestamp is updated on every check, and the
diagnostic note is logged iff there is no recorded last *check* or the
recorded last check — not the last note — is more than 6 hours old; since
silent checks also update that timestamp, they reset the 6-hour window, and a
check may skip the note even when the last actually-logged note is older than
6 hours. -/
theorem c3_check_note_amended (env : Env) (st : ClockState) (now : Timestamp) (pid : String)
    (hth : throttleGuard st now = false)
    (hap : env.activeProject = Except.ok pid)
    (has : env.assessResult = Except.ok false) :
    lookupKey (performArchiving env st now).1.lastAnalysis "data_archiving_check" = some now ∧
    (Effect.logDebug noArchivingMsg ∈ (performArchiving env st now).2 ↔
      (lookupKey st.lastAnalysis "data_archiving_check" = none ∨
       ∃ c, lookupKey st.lastAnalysis "data_archiving_check" = some c ∧
         now - c > 21600000)) := by
  unfold performArchiving runCatch tryArchiving
  simp only [hth, Bool.false_eq_true, if_false, hap, has]
  refine ⟨lookupKey_setKey_self _ _ _, ?_⟩
  rcases hlc : lookupKey st.lastAnalysis "data_archiving_check" with _ | c
  · simp [hlc]
  · by_cases hc : now - c > 21600000 <;> simp [hlc, hc]

/-- C3 witness: a first-ever no-op check (no recorded last check) updates the
check timestamp and logs the note. -/
theorem c3_check_note_witness :
    lookupKey (performArchiving envBase stFresh 1).1.lastAnalysis "data_archiving_check" =
      some 1 ∧
    (Effect.logDebug noArchivingMsg ∈ (performArchiving envBase stFresh 1).2 ↔
      (lookupKey stFresh.lastAnalysis "data_archiving_check" = none ∨
       ∃ c, lookupKey stFresh.lastAnalysis "data_archiving_check" = some c ∧
         (1 : Int) - c > 21600000)) :=
  c3_check_note_amended envBase stFresh 1 "p1" (by decide) rfl rfl

/-- C3 counterexample: no-op checks at 1 ms, 3 hours and 7 hours (archiving
never needed).  The note is logged at the first check only.  At the third
check the last note is 7 hours old — more than 6 — yet no note is logged,
because the silent second check refreshed the `data_archiving_check`
timestamp the code actually compares against. -/
theorem c3_check_note_counterexample :
    Effect.logDebug noArchivingMsg ∈ (performArchiving envBase stFresh 1).2 ∧
    Effect.logDebug noArchivingMsg ∉
      (performArchiving envBase (performArchiving envBase stFresh 1).1 10800001).2 ∧
    Effect.logDebug noArchivingMsg ∉
      (performArchiving envBase (performArchiving envBase
        (performArchiving envBase stFresh 1).1 10800001).1 25200001).2 ∧
    ((25200001 : Int) - 1 > 21600000) := by
  decide

/-- The per-item difficulty value as the claim words it: the item's
`difficulty` field, with the default 3 only when the field is missing. -/
def specItemDifficulty (t : LearningTopic) : ℚ :=
  match t.difficulty with
  | none => 3
  | some d => (d : ℚ)

/-- The mean difficulty as the claim words it. -/
def specMeanDifficulty (topics : List LearningTopic) : ℚ :=
  (topics.map specItemDifficulty).sum / (topics.length : ℚ)

/-- The per-item difficulty value as the amended claim words it: the default 3
applies when the field is missing or equal to 0 (JS `||` treats 0 as absent). -/
def amendedItemDifficulty (t : LearningTopic) : ℚ :=
  match t.difficulty with
  | none => 3
  | some d => if d = 0 then 3 else (d : ℚ)

/-- The mean difficulty as the amended claim words it. -/
def amendedMeanDifficulty (topics : List LearningTopic) : ℚ :=
  (topics.map amendedItemDifficulty).sum / (topics.length : ℚ)

theorem cast_jsDifficulty (t : LearningTopic) :
    ((jsDifficulty t.difficulty : Int) : ℚ) = amendedItemDifficulty t := by
  unfold jsDifficulty amendedItemDifficulty
  rcases t.difficulty with _ | d
  · norm_num
  · by_cases h : d = 0 <;> simp [h]

theorem foldl_jsDifficulty_cast (l : List LearningTopic) (a : Int) :
    (((l.map (fun t => jsDifficulty t.difficulty)).foldl (· + ·) a : Int) : ℚ) =
      (a : ℚ) + (l.map amendedItemDifficulty).sum := by
  induction l generalizing a with
  | nil => simp
  | cons hd tl ih =>
    simp only [List.map_cons, List.foldl_cons, List.sum_cons, ih, Int.cast_add,
      cast_jsDifficulty]
    ring

/-- A completed item whose difficulty field holds the number 0. -/
def topicZero : LearningTopic :=
  { difficulty := some 0, breakthrough := false, branch := none, completedAt := none }

/-- A completed item of difficulty 2, for the C6 witness. -/
def topicTwo : LearningTopic :=
  { difficulty := some 2, breakthrough := false, branch := none, completedAt := none }

/-- C6 (corrected): on an empty completed-items list the metrics are all zero
with no error marker; on a non-empty list the mean difficulty defaults an
item's difficulty to 3 when the field is missing *or equal to 0* — the code's
`t.difficulty || 3` treats the falsy value 0 like an absent field, not as the
number 0 the claim's plain reading would average in. -/
theorem c6_metrics_amended (now : Timestamp) (topics : List LearningTopic)
    (hne : topics ≠ []) :
    calculateSystemMetrics now (some []) = zeroMetrics ∧
    (calculateSystemMetrics now (some topics)).averageDifficulty =
      amendedMeanDifficulty topics ∧
    (calculateSystemMetrics now (some topics)).error = none := by
  have hlen : topics.length ≠ 0 := by
    simpa [List.length_eq_zero] using hne
  refine ⟨rfl, ?_, ?_⟩ <;>
    simp only [calculateSystemMetrics, hlen, if_false, amendedMeanDifficulty,
      foldl_jsDifficulty_cast, Int.cast_zero, zero_add, List.length_map]

/-- C6 witness: a one-item list with difficulty 2 — its mean is 2. -/
theorem c6_metrics_witness :
    calculateSystemMetrics 0 (some []) = zeroMetrics ∧
    (calculateSystemMetrics 0 (some [topicTwo])).averageDifficulty =
      amendedMeanDifficulty [topicTwo] ∧
    (calculateSystemMetrics 0 (some [topicTwo])).error = none :=
  c6_metrics_amended 0 [topicTwo] (by decide)

/-- C6 counterexample: for the one-item list whose difficulty field is 0 the
code's mean difficulty is 3, while the claim's rule (default only when the
field is missing) gives 0. -/
theorem c6_metrics_counterexample :
    (calculateSystemMetrics 0 (some [topicZero])).averageDifficulty = 3 ∧
    specMeanDifficulty [topicZero] = 0 ∧
    (calculateSystemMetrics 0 (some [topicZero])).averageDifficulty ≠
      specMeanDifficulty [topicZero] := by
  have h1 : (calculateSystemMetrics 0 (some [topicZero])).averageDifficulty = 3 := by
    norm_num [calculateSystemMetrics, topicZero, jsDifficulty]
  have h2 : specMeanDifficulty [topicZero] = 0 := by
    norm_num [specMeanDifficulty, specItemDifficulty, topicZero]
  exact ⟨h1, h2, by rw [h1, h2]; norm_num⟩

theorem runCatch_thrown (ctx : String) (r : TryResult) (m : String) (h : r.thrown = some m) :
    runCatch ctx r = (r.state, r.trace ++ [Effect.logErr m, Effect.persistError ctx]) := by
  unfold runCatch; rw [h]

theorem analysis_body_failure (op : String) (pr : Except String Unit)
    (key topic ctx : String) (env : Env) (st : ClockState) (now : Timestamp) (m : String)
    (h : (tryAnalysisBody op pr key topic env st now).thrown = some m) :
    runCatch ctx (tryAnalysisBody op pr key topic env st now) =
      ((tryAnalysisBody op pr key topic env st now).state,
       (tryAnalysisBody op pr key topic env st now).trace ++
         [Effect.logErr m, Effect.persistError ctx]) ∧
    (tryAnalysisBody op pr key topic env st now).state.lastAnalysis = st.lastAnalysis ∧
    Effect.emit topic ∉ (runCatch ctx (tryAnalysisBody op pr key topic env st now)).2 := by
  refine ⟨runCatch_thrown ctx _ m h, ?_, ?_⟩
  · rcases hap : env.activeProject with m' | pid <;>
      rcases hpr : pr with m'' | u <;>
        simp_all [tryAnalysisBody]
  · rw [runCatch_thrown ctx _ m h]
    rcases hap : env.activeProject with m' | pid <;>
      rcases hpr : pr with m'' | u <;>
        simp_all [tryAnalysisBody, gather_no_emit]

/-- C8 (confirmed): for every execution body and every failing step inside
it — no active project, a failing snapshot load, a raised provider call — the
failure is caught and never escapes to the timer or event-bus callback: an
exception leaving the `try` block makes the body return the pre-failure
state (the run's registry entry is not written), record the error via the
logging collaborators, and publish no success event; a snapshot-load failure
is caught and logged inside the gatherer and the body still returns
normally.  Since every body is a total function returning state and trace,
no failure can disable another job's timer. -/
theorem c8_failures_swallowed (env : Env) (st : ClockState) (now : Timestamp) :
    (∀ m, (tryStrategic env st now).thrown = some m →
      performStrategicAnalysis env st now =
        ((tryStrategic env st now).state,
         (tryStrategic env st now).trace ++
           [Effect.logErr m, Effect.persistError "SystemClock.performStrategicAnalysis"]) ∧
      (tryStrategic env st now).state.lastAnalysis = st.lastAnalysis ∧
      Effect.emit "system:strategic_insights" ∉ (performStrategicAnalysis env st now).2) ∧
    (∀ m, (tryRisk env st now).thrown = some m →
      performRiskDetection env st now =
        ((tryRisk env st now).state,
         (tryRisk env st now).trace ++
           [Effect.logErr m, Effect.persistError "SystemClock.performRiskDetection"]) ∧
      (tryRisk env st now).state.lastAnalysis = st.lastAnalysis ∧
      Effect.emit "system:risks_detected" ∉ (performRiskDetection env st now).2) ∧
    (∀ m, (tryOpportunity env st now).thrown = some m →
      performOpportunityScanning env st now =
        ((tryOpportunity env st now).state,
         (tryOpportunity env st now).trace ++
           [Effect.logErr m, Effect.persistError "SystemClock.performOpportunityScanning"]) ∧
      (tryOpportunity env st now).state.lastAnalysis = st.lastAnalysis ∧
      Effect.emit "system:opportunities_detected" ∉
        (performOpportunityScanning env st now).2) ∧
    (∀ m, (tryIdentity env st now).thrown = some m →
      performIdentityReflection env st now =
        ((tryIdentity env st now).state,
         (tryIdentity env st now).trace ++
           [Effect.logErr m, Effect.persistError "SystemClock.performIdentityReflection"]) ∧
      (tryIdentity env st now).state.lastAnalysis = st.lastAnalysis ∧
      Effect.emit "system:identity_insights" ∉ (performIdentityReflection env st now).2) ∧
    (∀ m, (tryArchiving env st now).thrown = some m →
      performArchiving env st now =
        ((tryArchiving env st now).state,
         (tryArchiving env st now).trace ++
           [Effect.logErr m, Effect.persistError "SystemClock.performArchiving"]) ∧
      (tryArchiving env st now).state.lastAnalysis = st.lastAnalysis ∧
      Effect.emit "system:archiving_completed" ∉ (performArchiving env st now).2) ∧
    (∀ m pid, env.configLoad = Except.error m → env.activeProject = Except.ok pid →
      Effect.logErr m ∈ (performStrategicAnalysis env st now).2) := by
  refine ⟨fun m h => analysis_body_failure _ _ _ _ _ env st now m h,
          fun m h => analysis_body_failure _ _ _ _ _ env st now m h,
          fun m h => analysis_body_failure _ _ _ _ _ env st now m h,
          fun m h => analysis_body_failure _ _ _ _ _ env st now m h,
          ?_, ?_⟩
  · intro m h
    have heq := runCatch_thrown "SystemClock.performArchiving" (tryArchiving env st now) m h
    refine ⟨heq, ?_, ?_⟩
    · unfold tryArchiving at h ⊢
      by_cases hth : throttleGuard st now = true
      · simp_all
      · rcases hap : env.activeProject with m' | pid
        · simp_all
        · rcases has : env.assessResult with m'' | needed
          · simp_all
          · cases needed
            · simp_all
            · rcases harr : env.archiveResult with m3 | u <;> simp_all
    · show Effect.emit "system:archiving_completed" ∉
        (runCatch "SystemClock.performArchiving" (tryArchiving env st now)).2
      rw [heq]
      unfold tryArchiving at h ⊢
      by_cases hth : throttleGuard st now = true
      · simp_all
      · rcases hap : env.activeProject with m' | pid
        · simp_all
        · rcases has : env.assessResult with m'' | needed
          · simp_all
          · cases needed
            · simp_all
            · rcases harr : env.archiveResult with m3 | u <;> simp_all
  · intro m pid hcl hap
    unfold performStrategicAnalysis tryStrategic tryAnalysisBody gatherSystemState
    rcases hpr : env.analysisResult with m' | u <;>
      simp [hap, hcl, hpr, runCatch]

/-- C8 witness: an environment with no active project makes every body throw
at the project step; each failure is logged and swallowed as stated. -/
theorem c8_failures_swallowed_witness :
    performStrategicAnalysis envNoProject stFresh 5 =
      ((tryStrategic envNoProject stFresh 5).state,
       (tryStrategic envNoProject stFresh 5).trace ++
         [Effect.logErr "no active project",
          Effect.persistError "SystemClock.performStrategicAnalysis"]) ∧
    (tryStrategic envNoProject stFresh 5).state.lastAnalysis = stFresh.lastAnalysis ∧
    Effect.emit "system:strategic_insights" ∉
      (performStrategicAnalysis envNoProject stFresh 5).2 :=
  (c8_failures_swallowed envNoProject stFresh 5).1 "no active project" rfl

/-- Whether an `Except` value is a normal return. -/
def isOkB {α : Type} : Except String α → Bool
  | .ok _ => true
  | .error _ => false

theorem providerCalls_runCatch (ctx : String) (r : TryResult) :
    providerCalls (runCatch ctx r).2 = providerCalls r.trace := by
  unfold runCatch providerCalls
  cases hr : r.thrown <;> simp [List.filter_append, isProviderCall]

theorem analysis_body_providerCalls (op : String) (pr : Except String Unit)
    (key topic ctx : String) (env : Env) (st : ClockState) (now : Timestamp) :
    providerCalls (runCatch ctx (tryAnalysisBody op pr key topic env st now)).2 =
      (if isOkB env.activeProject then 1 else 0) := by
  rw [providerCalls_runCatch]
  rcases hap : env.activeProject with m | pid <;> rcases hpr : pr with m' | u <;>
    simp [tryAnalysisBody, hap, hpr, providerCalls, List.filter_append,
      gather_no_provider, isProviderCall, isOkB]

theorem analysis_body_success (op : String) (key topic ctx : String)
    (env : Env) (st : ClockState) (now : Timestamp) (pid : String)
    (hap : env.activeProject = Except.ok pid) :
    (runCatch ctx (tryAnalysisBody op (Except.ok ()) key topic env st now)).1.lastAnalysis =
      setKey st.lastAnalysis key now := by
  simp [runCatch, tryAnalysisBody, hap]

/-- C1 (corrected): for the four analysis tags the manual trigger executes
exactly one provider invocation when an active project resolves (zero when
project resolution fails) and, on success, sets that JobKind's registry entry
to the invocation time — which is ≥ every previously stored value, under the
hypothesis that stored timestamps never exceed the current clock.  The
`archive` tag instead runs the throttled archiving body: zero archiver
invocations when throttled, one (the assessment) when no archiving is needed
(only the auxiliary check key advances), and two when archiving proceeds
(then `data_archiving` advances).  An unrecognized tag is reported as an
error and executes no job body. -/
theorem c1_manual_trigger_amended (env : Env) (st : ClockState) (now : Timestamp)
    (hmono : ∀ k v, lookupKey st.lastAnalysis k = some v → v ≤ now) :
    (providerCalls (triggerImmediateAnalysis env st now "strategic").2 =
      (if isOkB env.activeProject then 1 else 0)) ∧
    (∀ pid, env.activeProject = Except.ok pid → env.analysisResult = Except.ok () →
      lookupKey (triggerImmediateAnalysis env st now "strategic").1.lastAnalysis
          "strategic_analysis" = some now ∧
      (∀ v, lookupKey st.lastAnalysis "strategic_analysis" = some v → v ≤ now)) ∧
    (providerCalls (triggerImmediateAnalysis env st now "risk").2 =
      (if isOkB env.activeProject then 1 else 0)) ∧
    (∀ pid, env.activeProject = Except.ok pid → env.analysisResult = Except.ok () →
      lookupKey (triggerImmediateAnalysis env st now "risk").1.lastAnalysis
          "risk_detection" = some now ∧
      (∀ v, lookupKey st.lastAnalysis "risk_detection" = some v → v ≤ now)) ∧
    (providerCalls (triggerImmediateAnalysis env st now "opportunity").2 =
      (if isOkB env.activeProject then 1 else 0)) ∧
    (∀ pid, env.activeProject = Except.ok pid → env.analysisResult = Except.ok () →
      lookupKey (triggerImmediateAnalysis env st now "opportunity").1.lastAnalysis
          "opportunity_scanning" = some now ∧
      (∀ v, lookupKey st.lastAnalysis "opportunity_scanning" = some v → v ≤ now)) ∧
    (providerCalls (triggerImmediateAnalysis env st now "identity").2 =
      (if isOkB env.activeProject then 1 else 0)) ∧
    (∀ pid, env.activeProject = Except.ok pid → env.reflectionResult = Except.ok () →
      lookupKey (triggerImmediateAnalysis env st now "identity").1.lastAnalysis
          "identity_reflection" = some now ∧
      (∀ v, lookupKey st.lastAnalysis "identity_reflection" = some v → v ≤ now)) ∧
    (throttleGuard st now = true →
      triggerImmediateAnalysis env st now "archive" = (st, [Effect.logDebug throttledMsg]) ∧
      providerCalls (triggerImmediateAnalysis env st now "archive").2 = 0) ∧
    (∀ pid, throttleGuard st now = false → env.activeProject = Except.ok pid →
      env.assessResult = Except.ok false →
      providerCalls (triggerImmediateAnalysis env st now "archive").2 = 1 ∧
      lookupKey (triggerImmediateAnalysis env st now "archive").1.lastAnalysis
        "data_archiving_check" = some now) ∧
    (∀ pid, throttleGuard st now = false → env.activeProject = Except.ok pid →
      env.assessResult = Except.ok true → env.archiveResult = Except.ok () →
      providerCalls (triggerImmediateAnalysis env st now "archive").2 = 2 ∧
      lookupKey (triggerImmediateAnalysis env st now "archive").1.lastAnalysis
        "data_archiving" = some now) ∧
    (∀ tag, tag ∉ ["strategic", "risk", "opportunity", "identity", "archive"] →
      triggerImmediateAnalysis env st now tag =
        (st, [Effect.logErr ("Unknown analysis type: " ++ tag)])) := by
  have hs : triggerImmediateAnalysis env st now "strategic" =
      performStrategicAnalysis env st now := rfl
  have hr : triggerImmediateAnalysis env st now "risk" =
      performRiskDetection env st now := rfl
  have ho : triggerImmediateAnalysis env st now "opportunity" =
      performOpportunityScanning env st now := rfl
  have hi : triggerImmediateAnalysis env st now "identity" =
      performIdentityReflection env st now := rfl
  have ha : triggerImmediateAnalysis env st now "archive" =
      performArchiving env st now := rfl
  refine ⟨?_, ?_, ?_, ?_, ?_, ?_, ?_, ?_, ?_, ?_, ?_, ?_⟩
  · rw [hs]; exact analysis_body_providerCalls _ _ _ _ _ env st now
  · intro pid hap hpr
    refine ⟨?_, fun v hv => hmono _ v hv⟩
    rw [hs]
    unfold performStrategicAnalysis tryStrategic
    rw [hpr, analysis_body_success _ _ _ _ env st now pid hap]
    exact lookupKey_setKey_self _ _ _
  · rw [hr]; exact analysis_body_providerCalls _ _ _ _ _ env st now
  · intro pid hap hpr
    refine ⟨?_, fun v hv => hmono _ v hv⟩
    rw [hr]
    unfold performRiskDetection tryRisk
    rw [hpr, analysis_body_success _ _ _ _ env st now pid hap]
    exact lookupKey_setKey_self _ _ _
  · rw [ho]; exact analysis_body_providerCalls _ _ _ _ _ env st now
  · intro pid hap hpr
    refine ⟨?_, fun v hv => hmono _ v hv⟩
    rw [ho]
    unfold performOpportunityScanning tryOpportunity
    rw [hpr, analysis_body_success _ _ _ _ env st now pid hap]
    exact lookupKey_setKey_self _ _ _
  · rw [hi]; exact analysis_body_providerCalls _ _ _ _ _ env st now
  · intro pid hap hpr
    refine ⟨?_, fun v hv => hmono _ v hv⟩
    rw [hi]
    unfold performIdentityReflection tryIdentity
    rw [hpr, analysis_body_success _ _ _ _ env st now pid hap]
    exact lookupKey_setKey_self _ _ _
  · intro hth
    rw [ha, performArchiving_throttled env st now hth]
    exact ⟨rfl, by simp [providerCalls, isProviderCall]⟩
  · intro pid hth hap has
    rw [ha]
    unfold performArchiving runCatch tryArchiving
    simp only [hth, Bool.false_eq_true, if_false, hap, has]
    constructor
    · by_cases hlog : (lookupKey st.lastAnalysis "data_archiving_check").isNone ||
          decide (now - (lookupKey st.lastAnalysis "data_archiving_check").getD 0 > 21600000) = true <;>
        simp_all [providerCalls, List.filter_append, isProviderCall]
    · exact lookupKey_setKey_self _ _ _
  · intro pid hth hap has harr
    rw [ha]
    unfold performArchiving runCatch tryArchiving
    simp only [hth, Bool.false_eq_true, if_false, hap, has, harr, if_true]
    exact ⟨by simp [providerCalls, isProviderCall], lookupKey_setKey_self _ _ _⟩
  · intro tag htag
    unfold triggerImmediateAnalysis
    split <;> simp_all

/-- C1 witness: on a fresh clock with a cooperative environment the strategic
tag makes exactly one provider invocation. -/
theorem c1_manual_trigger_witness :
    providerCalls (triggerImmediateAnalysis envBase stFresh 5 "strategic").2 =
      (if isOkB envBase.activeProject then 1 else 0) :=
  (c1_manual_trigger_amended envBase stFresh 5
    (by intro k v h; simp [stFresh, lookupKey] at h)).1

/-- C1 counterexample: from a state whose last recorded archiving attempt was
at 1000 ms, a manual `archive` trigger at 10000 ms is throttled and makes
zero provider invocations — not the exactly one the claim states. -/
theorem c1_manual_trigger_counterexample :
    providerCalls (triggerImmediateAnalysis envBase
      (performArchiving envBase stFresh 1000).1 10000 "archive").2 = 0 ∧
    providerCalls (triggerImmediateAnalysis envBase
      (performArchiving envBase stFresh 1000).1 10000 "archive").2 ≠ 1 := by
  decide

end SystemClockModel
